import Mathlib

/-!
Verification of the connection-lifecycle core of an LSP client plugin
(`plugin/core/sessions.py` and, where the window multiplexer is concerned,
its specified behaviour).  Python objects are embedded shallowly: JSON-like
values as an inductive type, dictionaries as association lists, the mutable
`Session` object as a record with operations returning the updated record
together with a trace of observable effects (requests sent, callbacks
invoked, dialogs shown).
-/

/-- A JSON-like value as passed around the protocol layer (Python dict /
list / str / bool / int / None). -/
inductive JsonVal where
  | bool (b : Bool)
  | str (s : String)
  | num (n : Int)
  | obj (fields : List (String × JsonVal))
  | arr (items : List JsonVal)
  | null

/-- A Python `dict` with string keys, embedded as an association list
(keys unique, first binding wins on lookup). -/
abbrev Dict := List (String × JsonVal)

/-- Lookup in an association list: Python `d.get(k)` / `k in d`. -/
def assocLookup {α : Type} : List (String × α) → String → Option α
  | [], _ => none
  | (k, v) :: rest, key => if k = key then some v else assocLookup rest key

/-- Python dict assignment `d[k] = v`: replace the binding if the key is
present, otherwise append it. -/
def assocInsert {α : Type} : List (String × α) → String → α → List (String × α)
  | [], k, v => [(k, v)]
  | (k', v') :: rest, k, v =>
      if k' = k then (k, v) :: rest else (k', v') :: assocInsert rest k v

/-- Number of bindings for a given key in an association list. -/
def keyCount {α : Type} (l : List (String × α)) (k : String) : Nat :=
  (l.filter fun p => p.1 == k).length

/-- Python identity test `v is False`: true exactly on the boolean `False`
object. -/
def JsonVal.isFalse : JsonVal → Bool
  | JsonVal.bool false => true
  | _ => false

/-- View a JSON value as the field list of an object (the protocol guarantees an
object wherever this is used; any other shape reads as the empty object). -/
def JsonVal.asObj : JsonVal → Dict
  | JsonVal.obj fields => fields
  | _ => []

/-- `result.get(key, dict())` for a response field that the protocol
declares to be an object. -/
def Dict.getObjD (d : Dict) (k : String) : Dict :=
  match assocLookup d k with
  | some v => v.asObj
  | none => []

/-- Modelled from the spec: the `ClientStates` enumeration lives in
`types.py`, which is not under src/.  Per the spec, the state of a Connection is
one of `Starting`, `Ready`, `Stopping`, `Ended` (terminal); the test files
reference `ClientStates.STARTING`, `.READY` and `.STOPPING` by these names. -/
inductive ClientStates where
  | STARTING
  | READY
  | STOPPING
  | ENDED
deriving DecidableEq

/-- Modelled from the spec: `ClientConfig` lives in `types.py`, which is not
under src/.  `sessions.py` reads only its `name`, `binary_args` (launch
arguments), `tcp_port` with `tcp_host` (the optional fixed endpoint), and
`init_options`; a `tcp_port` of `None` or `0` is falsy in Python, captured
here by `ClientConfig.tcpTruthy`. -/
structure ClientConfig where
  name : String
  binary_args : List String
  tcp_port : Option Nat
  tcp_host : Option String
deriving DecidableEq

/-- Python truthiness of `config.tcp_port` (an `Optional[int]`): falsy when
`None` or `0`. -/
def ClientConfig.tcpTruthy (config : ClientConfig) : Bool :=
  match config.tcp_port with
  | none => false
  | some p => p != 0

/-- The `Session` object of `sessions.py`.  `client` is the exclusively
owned channel (`Option Unit`: present, or released by setting the Python
field to `None`).  The `_on_created` / `_on_ended` callback fields are
modelled by presence booleans; an actual invocation is recorded as an
event in the trace of the operation. -/
structure Session where
  config : ClientConfig
  project_path : String
  state : ClientStates
  on_created : Bool
  on_ended : Bool
  capabilities : Dict
  client : Option Unit

/-- Observable effects of Session operations: calls into the client channel,
the host UI, the logging sink, and the lifecycle callbacks.
`onCreatedCalled` carries the session object as the callback sees it at
invocation time (Python passes the mutable `self`). -/
inductive Event where
  | onNotificationRegistered (method : String)
  | onRequestRegistered (method : String)
  | sentRequest (method : String)
  | sentResponse (request_id : Nat) (result : Dict)
  | clientExit
  | onCreatedCalled (s : Session)
  | onEndedCalled (config_name : String)
  | serverLog (tag : String) (message : JsonVal)
  | messageDialog (message : JsonVal)
  | processTerminated (process : Nat) (raised : Bool)

/-- `extract_message`: `response.get("message", "???") if response else "???"`. -/
def extract_message (response : Option Dict) : JsonVal :=
  match response with
  | some d => (assocLookup d "message").getD (JsonVal.str "???")
  | none => JsonVal.str "???"

/-- `Session.__init__`: stores the fields, starts in `STARTING` with empty
capabilities, then registers the special notification and request handlers
(`__setup_special_notification_and_request_handlers`), then sends the
`initialize` request (`__initialize`) — in that order. -/
def Session.construct (config : ClientConfig) (project_path : String)
    (on_created : Bool) (on_ended : Bool) : Session × List Event :=
  ({ config := config
     project_path := project_path
     state := ClientStates.STARTING
     on_created := on_created
     on_ended := on_ended
     capabilities := []
     client := some () },
   [Event.onNotificationRegistered "window/logMessage",
    Event.onNotificationRegistered "window/showMessage",
    Event.onRequestRegistered "window/showMessageRequest",
    Event.sentRequest "initialize"])

/-- `Session.has_capability`:
`capability in self.capabilities and self.capabilities[capability] is not False`. -/
def Session.has_capability (s : Session) (capability : String) : Bool :=
  match assocLookup s.capabilities capability with
  | none => false
  | some v => !v.isFalse

/-- `Session.get_capability`: `self.capabilities.get(capability)`. -/
def Session.get_capability (s : Session) (capability : String) : Option JsonVal :=
  assocLookup s.capabilities capability

/-- `Session.end`: sets state to `STOPPING` and sends the shutdown request
(whose success and error callbacks both run `__handle_shutdown_result`,
modelled below as `Session.shutdown_on_success` / `Session.shutdown_on_error`). -/
def Session.«end» (s : Session) : Session × List Event :=
  ({ s with state := ClientStates.STOPPING }, [Event.sentRequest "shutdown"])

/-- `Session.__handle_shutdown_result`: `self.client.exit()`, release the
client (`self.client = None`), clear capabilities, then invoke `_on_ended`
with the configuration name when it was supplied.  Note it assigns no new
`state`. -/
def Session.handle_shutdown_result (s : Session) : Session × List Event :=
  ({ s with client := none, capabilities := [] },
   [Event.clientExit] ++
     (if s.on_ended then [Event.onEndedCalled s.config.name] else []))

/-- The success callback of the shutdown request:
`lambda result: self.__handle_shutdown_result()` (the result is dropped). -/
def Session.shutdown_on_success (s : Session) (result : Option JsonVal) :
    Session × List Event :=
  let _ := result
  Session.handle_shutdown_result s

/-- The error callback of the shutdown request:
`lambda: self.__handle_shutdown_result()`. -/
def Session.shutdown_on_error (s : Session) : Session × List Event :=
  Session.handle_shutdown_result s

/-- The full shutdown round trip when the server answers the shutdown
request successfully: `end()` followed by the success callback, with the
two traces concatenated. -/
def Session.shutdown_round_success (s : Session) (result : Option JsonVal) :
    Session × List Event :=
  let p1 := Session.«end» s
  let p2 := Session.shutdown_on_success p1.1 result
  (p2.1, p1.2 ++ p2.2)

/-- The full shutdown round trip when the shutdown request errors:
`end()` followed by the error callback. -/
def Session.shutdown_round_error (s : Session) : Session × List Event :=
  let p1 := Session.«end» s
  let p2 := Session.shutdown_on_error p1.1
  (p2.1, p1.2 ++ p2.2)

/-- `Session.__handle_initialize_result`: set state to `READY`, store
`result.get("capabilities", dict())`, and only then invoke `_on_created`
with the (already mutated) session when it was supplied. -/
def Session.handle_initialize_result (s : Session) (result : Dict) :
    Session × List Event :=
  let s' := { s with state := ClientStates.READY
                     capabilities := Dict.getObjD result "capabilities" }
  (s', if s.on_created then [Event.onCreatedCalled s'] else [])

/-- `Session.__handle_log_message`: forward to the server log tagged with
the configuration name. -/
def Session.handle_log_message (s : Session) (response : Option Dict) :
    List Event :=
  [Event.serverLog s.config.name (extract_message response)]

/-- `Session.__handle_show_message`: forward to the message dialog of the host. -/
def Session.handle_show_message (s : Session) (response : Option Dict) :
    List Event :=
  let _ := s
  [Event.messageDialog (extract_message response)]

/-- `response.get("actions", [])` (the protocol declares an array here; any
other shape reads as the empty list). -/
def actionsOf (response : Dict) : List JsonVal :=
  match assocLookup response "actions" with
  | some (JsonVal.arr items) => items
  | _ => []

/-- `action.get("title")` for one entry of the actions list (a Python
`None` result is the JSON null). -/
def actionTitle (action : JsonVal) : JsonVal :=
  (assocLookup action.asObj "title").getD JsonVal.null

/-- The `send_user_choice` closure inside `__handle_show_message_request`:
the quick-panel callback receives `-1` on dismissal (reply nothing) and
otherwise a list index, answered with `Response(request_id, {"title":
titles[index]})`.  `none` models the `IndexError` a Python index outside
the quick-panel contract (`-1` or `0 ≤ index < len`) would raise. -/
def send_user_choice (titles : List JsonVal) (request_id : Nat) (index : Int) :
    Option (List Event) :=
  if index = -1 then some []
  else
    match titles.get? index.toNat with
    | some t => some [Event.sentResponse request_id [("title", t)]]
    | none => none

/-- `Session.__handle_show_message_request`: with no actions, return
without replying; otherwise collect the action titles, show them in a
quick panel, and answer according to the eventual user choice
(`user_choice` is the index the panel hands to `send_user_choice`). -/
def Session.handle_show_message_request (s : Session) (response : Dict)
    (request_id : Nat) (user_choice : Int) : Option (List Event) :=
  let _ := s
  let actions := actionsOf response
  if actions.isEmpty then some []
  else send_user_choice (actions.map actionTitle) request_id user_choice

/-- The external collaborators `create_session` calls into:
`start_server(binary_args, project_path, ...)` yields a process handle or
fails; `start_tcp_transport(port, host)` yields a transport or fails;
`terminate_raises` says whether `process.terminate()` raises for a given
handle (the call site swallows any exception).  The environment dict and
the stderr-logging setting are absorbed into these functions. -/
structure Env where
  start_server : List String → String → Option Nat
  start_tcp_transport : Nat → Option String → Option Nat
  terminate_raises : Nat → Bool

/-- `create_session` of `sessions.py`.  With launch arguments: spawn the
server; on a truthy `tcp_port` connect the fixed endpoint and, if that
fails, terminate the spawned process best-effort (exceptions swallowed)
and return no session; otherwise attach a stdio client.  Without launch
arguments: a truthy `tcp_port` builds a session over
`Client(start_tcp_transport(port), ...)` with no check that the transport
was established (faithful to the source); else a supplied bootstrap client
is used; else no session (`debug("No way to start session")`). -/
def create_session (env : Env) (config : ClientConfig) (project_path : String)
    (on_created : Bool) (on_ended : Bool) (bootstrap_client : Bool) :
    Option Session × List Event :=
  if config.binary_args ≠ [] then
    match env.start_server config.binary_args project_path with
    | some process =>
        if config.tcpTruthy then
          match env.start_tcp_transport (config.tcp_port.getD 0) config.tcp_host with
          | some _transport =>
              let p := Session.construct config project_path on_created on_ended
              (some p.1, p.2)
          | none =>
              (none, [Event.processTerminated process (env.terminate_raises process)])
        else
          let p := Session.construct config project_path on_created on_ended
          (some p.1, p.2)
    | none => (none, [])
  else
    if config.tcpTruthy then
      let _transport := env.start_tcp_transport (config.tcp_port.getD 0) none
      let p := Session.construct config project_path on_created on_ended
      (some p.1, p.2)
    else if bootstrap_client then
      let p := Session.construct config project_path on_created on_ended
      (some p.1, p.2)
    else
      (none, [])

/-- How many times the end-callback fires in a trace. -/
def countOnEnded : List Event → Nat
  | [] => 0
  | Event.onEndedCalled _ :: rest => 1 + countOnEnded rest
  | _ :: rest => countOnEnded rest

/-- The per-window document tracker as exercised by `test_windows.py`
(`MockDocuments`, which is under src/): a list of opened document names and
a dict from configuration name to its Session. -/
structure MockDocuments where
  documents : List String
  session_table : List (String × Session)

/-- `MockDocuments.add_session`: `self._sessions[session.config.name] = session`. -/
def MockDocuments.add_session (docs : MockDocuments) (s : Session) : MockDocuments :=
  { docs with session_table := assocInsert docs.session_table s.config.name s }

/-- `MockDocuments.handle_view_opened`: append the file name of the document. -/
def MockDocuments.handle_view_opened (docs : MockDocuments) (doc : String) :
    MockDocuments :=
  { docs with documents := docs.documents ++ [doc] }

/-- Modelled from the spec: `WindowManager` (the Window Session Table) lives
in `windows.py`, which is not under src/ — only its tests are.  Per the
spec it owns, for one window, a mapping from configuration name to
Connection. -/
structure WindowManager where
  sessions : List (String × Session)

/-- `WindowManager.get_session(configName)`. -/
def WindowManager.get_session (wm : WindowManager) (config_name : String) :
    Option Session :=
  assocLookup wm.sessions config_name

/-- Modelled from the spec: starting one configuration for a document —
"for every configuration applicable to that document that has no existing
Connection, open one; register successes with the document tracker" and
"the second must observe the existing Connection and register against it
instead of starting a duplicate".  `start` is the external
connection-factory (synchronous here, as with the `MockClient` of the tests,
whose handshake completes inside the factory call, whereupon `add_session`
of the tracker runs). -/
def WindowManager.start_config (p : WindowManager × MockDocuments)
    (c : ClientConfig) (start : ClientConfig → Session) :
    WindowManager × MockDocuments :=
  match assocLookup p.1.sessions c.name with
  | some _existing => p
  | none =>
      let s := start c
      (⟨assocInsert p.1.sessions c.name s⟩, p.2.add_session s)

/-- Modelled from the spec: `WindowManager.activate_view` under an
unchanged project path — "start Connections for any newly-relevant,
not-yet-started configuration for `doc` and register the document"
(`applicable` is what the external configuration resolver returns for the
document; the tracker is told the document was opened). -/
def WindowManager.activate_view (wm : WindowManager) (docs : MockDocuments)
    (doc : String) (applicable : List ClientConfig)
    (start : ClientConfig → Session) : WindowManager × MockDocuments :=
  let p := applicable.foldl (fun p c => WindowManager.start_config p c start)
    (wm, docs.handle_view_opened doc)
  p

/-- The test-suite configuration: `ClientConfig("test", [], None, ...)`. -/
def test_config : ClientConfig :=
  { name := "test", binary_args := [], tcp_port := none, tcp_host := none }

/-- A session as built for `test_config` by the bootstrap client of the test. -/
def test_session : Session :=
  (Session.construct test_config "/" true true).1

/-- `test_session` after its handshake completed with the `MockClient`
response `{"capabilities": {"testing": true, ...}}`. -/
def test_ready_session : Session :=
  (Session.handle_initialize_result test_session
    [("capabilities",
      JsonVal.obj [("testing", JsonVal.bool true),
                   ("hoverProvider", JsonVal.bool true),
                   ("textDocumentSync", JsonVal.bool true)])]).1

/-- An environment whose server spawns (handle 7) but whose fixed TCP
endpoint never connects, and where terminating the process raises. -/
def tcp_down_env : Env :=
  { start_server := fun _ _ => some 7
    start_tcp_transport := fun _ _ => none
    terminate_raises := fun _ => true }

/-- Same as `tcp_down_env` except `process.terminate()` succeeds quietly. -/
def tcp_down_quiet_env : Env :=
  { tcp_down_env with terminate_raises := fun _ => false }

/-- A configuration that launches a binary and connects a fixed endpoint. -/
def tcp_config : ClientConfig :=
  { name := "tcp", binary_args := ["server", "--stdio"], tcp_port := some 8080,
    tcp_host := some "localhost" }

/-! Helper lemmas about association lists. -/

theorem assocLookup_assocInsert_self {α : Type} :
    ∀ (l : List (String × α)) (k : String) (v : α),
      assocLookup (assocInsert l k v) k = some v
  | [], k, v => by simp [assocInsert, assocLookup]
  | (k', v') :: rest, k, v => by
      by_cases h : k' = k
      · simp [assocInsert, h, assocLookup]
      · simp [assocInsert, h, assocLookup,
          assocLookup_assocInsert_self rest k v]

theorem keyCount_assocInsert_absent {α : Type} :
    ∀ (l : List (String × α)) (k : String) (v : α),
      assocLookup l k = none → keyCount (assocInsert l k v) k = 1
  | [], k, v, _ => by simp [assocInsert, keyCount]
  | (k', v') :: rest, k, v, h => by
      by_cases hk : k' = k
      · simp [assocLookup, hk] at h
      · have h' : assocLookup rest k = none := by
          simpa [assocLookup, hk] using h
        simpa [assocInsert, hk, keyCount] using
          keyCount_assocInsert_absent rest k v h'

/-- C1: the claim says the state after the shutdown round trip is the
terminal `Ended` state; on the code it is not — `__handle_shutdown_result`
assigns no state, so the session stays in the `STOPPING` that `end()` set
(witnessed here on a concrete Ready session, for the success round trip). -/
theorem shutdown_state_not_ended_cex :
    (Session.shutdown_round_success test_ready_session none).1.state ≠
      ClientStates.ENDED := by
  decide

/-- C1 (amended): for every Session that has reached Ready, after `end()`
and the shutdown completion callback (success or error), the state equals
`STOPPING`; the code never assigns the `Ended` state. -/
theorem shutdown_state_stopping (s : Session) (result : Option JsonVal)
    (_h : s.state = ClientStates.READY) :
    (Session.shutdown_round_success s result).1.state = ClientStates.STOPPING ∧
    (Session.shutdown_round_error s).1.state = ClientStates.STOPPING := by
  constructor <;>
    simp [Session.shutdown_round_success, Session.shutdown_round_error,
      Session.shutdown_on_success, Session.shutdown_on_error,
      Session.«end», Session.handle_shutdown_result]

/-- C1 witness: the amended statement holds on the concrete Ready session. -/
theorem shutdown_state_stopping_witness :
    test_ready_session.state = ClientStates.READY ∧
    ((Session.shutdown_round_success test_ready_session none).1.state =
        ClientStates.STOPPING ∧
      (Session.shutdown_round_error test_ready_session).1.state =
        ClientStates.STOPPING) :=
  ⟨by decide, shutdown_state_stopping test_ready_session none (by decide)⟩

/-- C3: whether the shutdown request completes with a success or an error
response, the transport is closed (`client.exit()`), the client field is
released, the capabilities mapping becomes empty, and the end-callback
fires exactly once, with the configuration name. -/
theorem shutdown_releases_and_ends_once (s : Session) (result : Option JsonVal)
    (h : s.on_ended = true) :
    ((Session.shutdown_round_success s result).1.client = none ∧
      (Session.shutdown_round_success s result).1.capabilities = [] ∧
      (Session.shutdown_round_success s result).2 =
        [Event.sentRequest "shutdown", Event.clientExit,
          Event.onEndedCalled s.config.name] ∧
      countOnEnded (Session.shutdown_round_success s result).2 = 1) ∧
    ((Session.shutdown_round_error s).1.client = none ∧
      (Session.shutdown_round_error s).1.capabilities = [] ∧
      (Session.shutdown_round_error s).2 =
        [Event.sentRequest "shutdown", Event.clientExit,
          Event.onEndedCalled s.config.name] ∧
      countOnEnded (Session.shutdown_round_error s).2 = 1) := by
  constructor <;>
    simp [Session.shutdown_round_success, Session.shutdown_round_error,
      Session.shutdown_on_success, Session.shutdown_on_error,
      Session.«end», Session.handle_shutdown_result, h, countOnEnded]

/-- C3 witness: instantiated on the concrete Ready session, whose
`on_ended` callback was supplied. -/
theorem shutdown_releases_and_ends_once_witness :
    test_ready_session.on_ended = true ∧
    (((Session.shutdown_round_success test_ready_session none).1.client = none ∧
      (Session.shutdown_round_success test_ready_session none).1.capabilities = [] ∧
      (Session.shutdown_round_success test_ready_session none).2 =
        [Event.sentRequest "shutdown", Event.clientExit,
          Event.onEndedCalled test_ready_session.config.name] ∧
      countOnEnded (Session.shutdown_round_success test_ready_session none).2 = 1) ∧
    ((Session.shutdown_round_error test_ready_session).1.client = none ∧
      (Session.shutdown_round_error test_ready_session).1.capabilities = [] ∧
      (Session.shutdown_round_error test_ready_session).2 =
        [Event.sentRequest "shutdown", Event.clientExit,
          Event.onEndedCalled test_ready_session.config.name] ∧
      countOnEnded (Session.shutdown_round_error test_ready_session).2 = 1)) :=
  ⟨by decide,
    shutdown_releases_and_ends_once test_ready_session none (by decide)⟩

/-- C10: `end()` together with the shutdown completion handler mutates only
`state`, `client` and `capabilities`: the `config`, `project_path` and
callback fields are untouched, on both the success and the error path. -/
theorem shutdown_frame (s : Session) (result : Option JsonVal) :
    ((Session.shutdown_round_success s result).1.config = s.config ∧
      (Session.shutdown_round_success s result).1.project_path = s.project_path ∧
      (Session.shutdown_round_success s result).1.on_created = s.on_created ∧
      (Session.shutdown_round_success s result).1.on_ended = s.on_ended) ∧
    ((Session.shutdown_round_error s).1.config = s.config ∧
      (Session.shutdown_round_error s).1.project_path = s.project_path ∧
      (Session.shutdown_round_error s).1.on_created = s.on_created ∧
      (Session.shutdown_round_error s).1.on_ended = s.on_ended) := by
  constructor <;>
    simp [Session.shutdown_round_success, Session.shutdown_round_error,
      Session.shutdown_on_success, Session.shutdown_on_error,
      Session.«end», Session.handle_shutdown_result]

/-- C4: a configuration with no launch arguments and no fixed TCP endpoint,
called without a bootstrap client, yields no Session ("No way to start
session"). -/
theorem create_session_no_way (env : Env) (config : ClientConfig)
    (project_path : String) (on_created on_ended : Bool)
    (hargs : config.binary_args = []) (hport : config.tcp_port = none) :
    (create_session env config project_path on_created on_ended false).1 =
      none := by
  simp [create_session, hargs, ClientConfig.tcpTruthy, hport]

/-- C4 witness: the test configuration (`ClientConfig("test", [], None)`)
with no bootstrap client yields no Session. -/
theorem create_session_no_way_witness :
    test_config.binary_args = [] ∧ test_config.tcp_port = none ∧
    (create_session tcp_down_env test_config "/" true true false).1 = none :=
  ⟨rfl, rfl, create_session_no_way tcp_down_env test_config "/" true true
    rfl rfl⟩

/-- C8: with launch arguments, a spawned process, and a fixed TCP endpoint
that cannot be connected, `create_session` returns no Session and
terminates the spawned process best-effort: the trace records the
termination attempt together with whether it raised, and the result is
`none` for every environment — in particular whether or not
`process.terminate()` raises, since the exception is swallowed. -/
theorem create_session_endpoint_down (env : Env) (config : ClientConfig)
    (project_path : String) (on_created on_ended bootstrap_client : Bool)
    (process port : Nat)
    (hargs : config.binary_args ≠ [])
    (hspawn : env.start_server config.binary_args project_path = some process)
    (hport : config.tcp_port = some port) (hport0 : port ≠ 0)
    (htcp : env.start_tcp_transport port config.tcp_host = none) :
    (create_session env config project_path on_created on_ended
        bootstrap_client).1 = none ∧
    (create_session env config project_path on_created on_ended
        bootstrap_client).2 =
      [Event.processTerminated process (env.terminate_raises process)] := by
  simp [create_session, hargs, hspawn, ClientConfig.tcpTruthy, hport, hport0,
    htcp]

/-- C8 witness: the endpoint-down environment with the TCP configuration,
applied both when termination raises and when it succeeds quietly: the
result is no Session either way, and the trace records the attempt. -/
theorem create_session_endpoint_down_witness :
    (tcp_config.binary_args ≠ [] ∧
      tcp_down_env.start_server tcp_config.binary_args "/" = some 7 ∧
      tcp_config.tcp_port = some 8080 ∧ (8080 : Nat) ≠ 0 ∧
      tcp_down_env.start_tcp_transport 8080 tcp_config.tcp_host = none) ∧
    ((create_session tcp_down_env tcp_config "/" true true false).1 = none ∧
      (create_session tcp_down_env tcp_config "/" true true false).2 =
        [Event.processTerminated 7 (tcp_down_env.terminate_raises 7)]) ∧
    ((create_session tcp_down_quiet_env tcp_config "/" true true false).1 = none ∧
      (create_session tcp_down_quiet_env tcp_config "/" true true false).2 =
        [Event.processTerminated 7 (tcp_down_quiet_env.terminate_raises 7)]) :=
  ⟨⟨by decide, rfl, rfl, by decide, rfl⟩,
    create_session_endpoint_down tcp_down_env tcp_config "/" true true false
      7 8080 (by decide) rfl rfl (by decide) rfl,
    create_session_endpoint_down tcp_down_quiet_env tcp_config "/" true true
      false 7 8080 (by decide) rfl rfl (by decide) rfl⟩

/-- C5: for a Session that reached Ready, `has_capability(name)` is true
iff the name is bound in the capabilities mapping to a value other than
the boolean `false`; in particular a capability stored as exactly `false`
counts as absent. -/
theorem has_capability_iff (s : Session) (capability : String)
    (_h : s.state = ClientStates.READY) :
    s.has_capability capability = true ↔
      ∃ v, assocLookup s.capabilities capability = some v ∧
        v ≠ JsonVal.bool false := by
  unfold Session.has_capability
  cases hl : assocLookup s.capabilities capability with
  | none => simp [hl]
  | some v =>
      simp only [hl, Option.some.injEq]
      constructor
      · intro hv
        refine ⟨v, rfl, ?_⟩
        intro hfalse
        subst hfalse
        simp [JsonVal.isFalse] at hv
      · rintro ⟨w, hw, hne⟩
        subst hw
        cases v with
        | bool b => cases b with
          | false => exact absurd rfl hne
          | true => simp [JsonVal.isFalse]
        | str t => simp [JsonVal.isFalse]
        | num n => simp [JsonVal.isFalse]
        | obj fields => simp [JsonVal.isFalse]
        | arr items => simp [JsonVal.isFalse]
        | null => simp [JsonVal.isFalse]

/-- C5 witness: the concrete Ready session advertises `testing`. -/
theorem has_capability_iff_witness :
    test_ready_session.state = ClientStates.READY ∧
    (test_ready_session.has_capability "testing" = true ↔
      ∃ v, assocLookup test_ready_session.capabilities "testing" = some v ∧
        v ≠ JsonVal.bool false) :=
  ⟨by decide, has_capability_iff test_ready_session "testing" (by decide)⟩

/-- C6: when the initialize request succeeds, the Session stores the
capabilities table of the response, its state becomes `READY`, and only then is
the supplied `on_created` callback invoked with the Session — the snapshot
the callback receives already carries the `READY` state and the stored
capabilities. -/
theorem initialize_result_ready (s : Session) (result : Dict)
    (h : s.on_created = true) :
    (Session.handle_initialize_result s result).1.state = ClientStates.READY ∧
    (Session.handle_initialize_result s result).1.capabilities =
      Dict.getObjD result "capabilities" ∧
    (Session.handle_initialize_result s result).2 =
      [Event.onCreatedCalled (Session.handle_initialize_result s result).1] := by
  simp [Session.handle_initialize_result, h]

/-- C6 witness: the freshly constructed test session handling the
`MockClient` initialize response. -/
theorem initialize_result_ready_witness :
    test_session.on_created = true ∧
    ((Session.handle_initialize_result test_session
        [("capabilities", JsonVal.obj [("testing", JsonVal.bool true)])]).1.state =
      ClientStates.READY ∧
    (Session.handle_initialize_result test_session
        [("capabilities", JsonVal.obj [("testing", JsonVal.bool true)])]).1.capabilities =
      Dict.getObjD [("capabilities", JsonVal.obj [("testing", JsonVal.bool true)])]
        "capabilities" ∧
    (Session.handle_initialize_result test_session
        [("capabilities", JsonVal.obj [("testing", JsonVal.bool true)])]).2 =
      [Event.onCreatedCalled (Session.handle_initialize_result test_session
        [("capabilities", JsonVal.obj [("testing", JsonVal.bool true)])]).1]) :=
  ⟨by decide, initialize_result_ready test_session
    [("capabilities", JsonVal.obj [("testing", JsonVal.bool true)])] (by decide)⟩

/-- C7: for an inbound `window/showMessageRequest` whose actions list is
non-empty, choosing index `i` sends exactly one response whose result is
`{"title": <the title of the i-th action>}`; dismissing the prompt (index `-1`)
sends nothing at all. -/
theorem show_message_request_reply (s : Session) (response : Dict)
    (request_id : Nat) (i : Nat) (hi : i < (actionsOf response).length) :
    Session.handle_show_message_request s response request_id (Int.ofNat i) =
      some [Event.sentResponse request_id
        [("title", actionTitle ((actionsOf response).get ⟨i, hi⟩))]] ∧
    Session.handle_show_message_request s response request_id (-1) =
      some [] := by
  have hne : (actionsOf response).isEmpty = false := by
    cases hac : actionsOf response with
    | nil => rw [hac] at hi; simp at hi
    | cons a rest => simp
  constructor
  · have hnot : Int.ofNat i ≠ -1 := by
      intro hc
      have h0 : (0 : Int) ≤ -1 := hc ▸ Int.ofNat_nonneg i
      norm_num at h0
    simp [Session.handle_show_message_request, hne, send_user_choice, hnot,
      List.getElem?_eq_getElem hi]
  · simp [Session.handle_show_message_request, hne, send_user_choice]

/-- C7 witness: a request offering two actions, with the user choosing the
second ("Cancel") and, separately, dismissing the prompt. -/
theorem show_message_request_reply_witness :
    (1 : Nat) < (actionsOf [("actions", JsonVal.arr
        [JsonVal.obj [("title", JsonVal.str "Retry")],
         JsonVal.obj [("title", JsonVal.str "Cancel")]])]).length ∧
    (Session.handle_show_message_request test_ready_session
        [("actions", JsonVal.arr
          [JsonVal.obj [("title", JsonVal.str "Retry")],
           JsonVal.obj [("title", JsonVal.str "Cancel")]])] 42 (Int.ofNat 1) =
      some [Event.sentResponse 42 [("title", JsonVal.str "Cancel")]] ∧
    Session.handle_show_message_request test_ready_session
        [("actions", JsonVal.arr
          [JsonVal.obj [("title", JsonVal.str "Retry")],
           JsonVal.obj [("title", JsonVal.str "Cancel")]])] 42 (-1) =
      some []) :=
  ⟨by decide,
    show_message_request_reply test_ready_session
      [("actions", JsonVal.arr
        [JsonVal.obj [("title", JsonVal.str "Retry")],
         JsonVal.obj [("title", JsonVal.str "Cancel")]])] 42 1 (by decide)⟩

/-- C9: construction registers the handlers for `window/logMessage`,
`window/showMessage` and `window/showMessageRequest` before the
`initialize` request is sent (the construction trace lists the three
registrations strictly ahead of the request), while the state is still
`STARTING` — independent of the handshake ever completing; a log-message
notification is forwarded to the server log tagged with the configuration
name, and a show-message notification to the user-facing message dialog. -/
theorem construct_installs_routing (config : ClientConfig)
    (project_path : String) (on_created on_ended : Bool)
    (response : Option Dict) :
    (Session.construct config project_path on_created on_ended).2 =
      [Event.onNotificationRegistered "window/logMessage",
       Event.onNotificationRegistered "window/showMessage",
       Event.onRequestRegistered "window/showMessageRequest",
       Event.sentRequest "initialize"] ∧
    (Session.construct config project_path on_created on_ended).1.state =
      ClientStates.STARTING ∧
    Session.handle_log_message
        (Session.construct config project_path on_created on_ended).1 response =
      [Event.serverLog config.name (extract_message response)] ∧
    Session.handle_show_message
        (Session.construct config project_path on_created on_ended).1 response =
      [Event.messageDialog (extract_message response)] := by
  simp [Session.construct, Session.handle_log_message,
    Session.handle_show_message]

/-- C2: a Window Session Table holds at most one Connection per
configuration name: starting from a table with no Connection for the
configuration, activating two documents that both require it leaves
exactly one Connection for that name, the second activation changes the
session table not at all (it observes the existing Connection instead of
starting a duplicate), and both documents end up registered with the
tracker. -/
theorem window_single_connection (wm : WindowManager) (docs : MockDocuments)
    (doc1 doc2 : String) (c : ClientConfig) (start : ClientConfig → Session)
    (h : wm.get_session c.name = none) :
    keyCount ((wm.activate_view docs doc1 [c] start).1.activate_view
        (wm.activate_view docs doc1 [c] start).2 doc2 [c] start).1.sessions
      c.name = 1 ∧
    ((wm.activate_view docs doc1 [c] start).1.activate_view
        (wm.activate_view docs doc1 [c] start).2 doc2 [c] start).1.sessions =
      (wm.activate_view docs doc1 [c] start).1.sessions ∧
    ((wm.activate_view docs doc1 [c] start).1.activate_view
        (wm.activate_view docs doc1 [c] start).2 doc2 [c] start).2.documents =
      docs.documents ++ [doc1, doc2] := by
  have h' : assocLookup wm.sessions c.name = none := h
  refine ⟨?_, ?_, ?_⟩ <;>
    simp [WindowManager.activate_view, WindowManager.start_config,
      MockDocuments.handle_view_opened, MockDocuments.add_session, h',
      assocLookup_assocInsert_self,
      keyCount_assocInsert_absent wm.sessions c.name (start c) h']

/-- C2 witness: the empty table activating two documents that both require
the test configuration. -/
theorem window_single_connection_witness :
    WindowManager.get_session ⟨[]⟩ test_config.name = none ∧
    (keyCount ((WindowManager.activate_view ⟨[]⟩ ⟨[], []⟩ "a.py" [test_config]
          (fun _ => test_ready_session)).1.activate_view
        (WindowManager.activate_view ⟨[]⟩ ⟨[], []⟩ "a.py" [test_config]
          (fun _ => test_ready_session)).2 "b.py" [test_config]
          (fun _ => test_ready_session)).1.sessions test_config.name = 1 ∧
    ((WindowManager.activate_view ⟨[]⟩ ⟨[], []⟩ "a.py" [test_config]
          (fun _ => test_ready_session)).1.activate_view
        (WindowManager.activate_view ⟨[]⟩ ⟨[], []⟩ "a.py" [test_config]
          (fun _ => test_ready_session)).2 "b.py" [test_config]
          (fun _ => test_ready_session)).1.sessions =
      (WindowManager.activate_view ⟨[]⟩ ⟨[], []⟩ "a.py" [test_config]
          (fun _ => test_ready_session)).1.sessions ∧
    ((WindowManager.activate_view ⟨[]⟩ ⟨[], []⟩ "a.py" [test_config]
          (fun _ => test_ready_session)).1.activate_view
        (WindowManager.activate_view ⟨[]⟩ ⟨[], []⟩ "a.py" [test_config]
          (fun _ => test_ready_session)).2 "b.py" [test_config]
          (fun _ => test_ready_session)).2.documents =
      ([] : List String) ++ ["a.py", "b.py"]) :=
  ⟨rfl, window_single_connection ⟨[]⟩ ⟨[], []⟩ "a.py" "b.py" test_config
    (fun _ => test_ready_session) rfl⟩
